import Mathlib

/-!
# Verification of the press-release-collection content-acquisition engine

Shallow embedding of the two core modules of the repository:

* `collect_results.py` — the Paginated Result Walker (`collect_search_results`):
  per-query pagination with a per-page retry loop, backoff, and error
  classification.
* `article_scraper.py` — the Extraction Strategy Chain
  (`scrape_single_article` over `scrape_with_newspaper` /
  `scrape_with_trafilatura` / `scrape_with_readability` / `scrape_with_goose`),
  the thread-safe metrics tracker `ScraperMetrics`, and the concurrent driver
  `scrape_articles_concurrent`.

Modelling conventions:
* Network and library effects are supplied as explicit environments
  (`FetchOutcome`, the per-strategy library results), so every Python
  control-flow path of the embedded functions is preserved exactly.
* Python `time.sleep` calls are recorded as a list of delays (they are
  observable behaviour the spec talks about); wall-clock values such as
  `time.time()` are passed in as `Rat` parameters.
* Python exceptions are `Except` / explicit outcome constructors; the
  bare `except:` handlers of the strategy functions map everything to `none`
  exactly as the source does.
* Numeric display formatting (`:.1f`, `:,`, padding) in report strings is
  abstracted to `toString`; every guard and every division of the source is
  kept, since `ZeroDivisionError` behaviour depends on them.
-/

namespace PressRelease

/-! ## Paginated Result Walker (`collect_results.py`) -/

/-- One entry of a SERP payload's `organic` array; the four columns the code
reads, each possibly absent (pandas fills absent columns with `None`). -/
structure OrganicEntry where
  title : Option String
  description : Option String
  link : Option String
  rank : Option Nat
  deriving Repr, DecidableEq

/-- The structured JSON payload of one result page, with the fields
`collect_search_results` reads: `organic`, `general.query`, and
`pagination.next_page_link`. -/
structure PagePayload where
  organic : List OrganicEntry
  general_query : String
  next_page_link : Option String
  deriving Repr, DecidableEq

/-- Outcome of one `requests.get` + `raise_for_status` + JSON decode of the
current page URL, as seen by the retry loop of `collect_search_results`:
* `success`: HTTP ok and JSON decoded to a payload;
* `parseError`: HTTP ok but `json.loads` raised `JSONDecodeError`;
* `timeout`: `requests.exceptions.Timeout`;
* `httpError s`: `requests.exceptions.HTTPError` with
  `e.response.status_code` equal to `s` (`none` when `e.response is None`);
* `connectionError`: any other `requests.exceptions.RequestException`;
* `unclassified`: any other exception raised inside the `try` body. -/
inductive FetchOutcome where
  | success (payload : PagePayload)
  | parseError
  | timeout
  | httpError (status : Option Nat)
  | connectionError
  | unclassified
  deriving Repr, DecidableEq

/-- Decision of one `except` handler of the retry loop: retry after sleeping
`delay` seconds, or give up on the page (`break`). -/
inductive RetryDecision where
  | retry (delay : Nat)
  | terminal
  deriving Repr, DecidableEq

/-- The shared handler shape for `Timeout`, generic `RequestException`
(connection errors) and the `JSONDecodeError` branch:
`if attempt < config.SERP_RETRY_ATTEMPTS - 1: time.sleep(2 ** attempt);
continue else: break`. -/
def transientDecision (budget attempt : Nat) : RetryDecision :=
  if attempt < budget - 1 then .retry (2 ^ attempt) else .terminal

/-- The `requests.exceptions.HTTPError` handler:
`if status_code == 429 and attempt < budget - 1: time.sleep(10 * (attempt + 1));
continue`, then the generic `if attempt < budget - 1: time.sleep(2 ** attempt);
continue else: break`. -/
def httpErrorDecision (budget attempt : Nat) (status : Option Nat) : RetryDecision :=
  if status = some 429 ∧ attempt < budget - 1 then .retry (10 * (attempt + 1))
  else if attempt < budget - 1 then .retry (2 ^ attempt)
  else .terminal

/-- How the per-page retry loop `for attempt in range(config.SERP_RETRY_ATTEMPTS)`
ended:
* `pageData p`: the `success = True` path — payload parsed and `organic`
  non-empty;
* `emptyOrganic`: `break` at `if not parsed.get("organic")` with
  `success = False` (also reached when `JSONDecodeError` persists through the
  budget, since the code then substitutes `parsed = {"organic": []}`);
* `failure`: `break` out of an `except` handler, or the range exhausted. -/
inductive AttemptOutcome where
  | pageData (payload : PagePayload)
  | emptyOrganic
  | failure
  deriving Repr, DecidableEq

/-- Observable result of one run of the retry loop: how it ended, how many
attempts were actually made, and the `time.sleep` backoff delays in order. -/
structure RetryResult where
  outcome : AttemptOutcome
  attemptsUsed : Nat
  sleeps : List Nat
  deriving Repr, DecidableEq

/-- Prefix an extra attempt (and its optional sleep) onto a retry result. -/
def RetryResult.after (sleep : List Nat) (r : RetryResult) : RetryResult :=
  ⟨r.outcome, r.attemptsUsed + 1, sleep ++ r.sleeps⟩

/-- The retry loop of `collect_search_results`, starting at attempt index
`attempt` with `remaining = budget - attempt` iterations of
`range(config.SERP_RETRY_ATTEMPTS)` left. `fetch a` is what the `try` body
observes on attempt `a`. `remaining = 0` is the range running out with
`success` still `False`. -/
def retryFrom (fetch : Nat → FetchOutcome) (budget : Nat) :
    (attempt remaining : Nat) → RetryResult
  | _, 0 => ⟨.failure, 0, []⟩
  | attempt, remaining + 1 =>
    match fetch attempt with
    | .success payload =>
      if payload.organic = [] then ⟨.emptyOrganic, 1, []⟩
      else ⟨.pageData payload, 1, []⟩
    | .parseError =>
      match transientDecision budget attempt with
      | .retry d => (retryFrom fetch budget (attempt + 1) remaining).after [d]
      | .terminal => ⟨.emptyOrganic, 1, []⟩
    | .timeout =>
      match transientDecision budget attempt with
      | .retry d => (retryFrom fetch budget (attempt + 1) remaining).after [d]
      | .terminal => ⟨.failure, 1, []⟩
    | .httpError status =>
      match httpErrorDecision budget attempt status with
      | .retry d => (retryFrom fetch budget (attempt + 1) remaining).after [d]
      | .terminal => ⟨.failure, 1, []⟩
    | .connectionError =>
      match transientDecision budget attempt with
      | .retry d => (retryFrom fetch budget (attempt + 1) remaining).after [d]
      | .terminal => ⟨.failure, 1, []⟩
    | .unclassified => ⟨.failure, 1, []⟩

/-- The whole retry loop for one page: attempts `0, 1, ..., budget - 1`. -/
def runAttempts (fetch : Nat → FetchOutcome) (budget : Nat) : RetryResult :=
  retryFrom fetch budget 0 budget

/-- One extracted `SearchResultRecord` row: the four required columns plus the
`query` column taken from `parsed["general"]["query"]`. -/
structure SearchRec where
  title : Option String
  description : Option String
  link : Option String
  rank : Option Nat
  query : String
  deriving Repr, DecidableEq

/-- `data = df[required_columns]; data["query"] = parsed["general"]["query"]`. -/
def extractRecords (p : PagePayload) : List SearchRec :=
  p.organic.map fun e =>
    { title := e.title, description := e.description, link := e.link,
      rank := e.rank, query := p.general_query }

/-- Per-query loop state of `collect_search_results`: `current_url`,
`page_count`, the accumulated `query_results` page frames, and the portion of
`failed_queries` contributed so far. `current_url = none` models a falsy
`current_url` (the code only ever assigns `None` or a non-empty string). -/
structure WalkerState where
  current_url : Option String
  page_count : Nat
  query_results : List (List SearchRec)
  failed_queries : List String
  deriving Repr, DecidableEq

/-- One iteration of the `while current_url and page_count < max_pages` body:
run the retry loop on the current URL, then apply the source's updates —
on the `success = True` path append the page frame, bump `page_count` and
take `next_page_link + "&brd_json=1"`; otherwise leave `current_url` and
`page_count` untouched and, when `page_count == 0`, append the query to
`failed_queries`. -/
def queryStep (fetch : String → Nat → FetchOutcome) (budget : Nat)
    (query : String) (s : WalkerState) : WalkerState :=
  match s.current_url with
  | none => s
  | some url =>
    let r := runAttempts (fetch url) budget
    match r.outcome with
    | .pageData p =>
      { s with
        query_results := s.query_results ++ [extractRecords p]
        current_url := p.next_page_link.map (fun l => l ++ "&brd_json=1")
        page_count := s.page_count + 1 }
    | .emptyOrganic =>
      if s.page_count = 0 then
        { s with failed_queries := s.failed_queries ++ [query] }
      else s
    | .failure =>
      if s.page_count = 0 then
        { s with failed_queries := s.failed_queries ++ [query] }
      else s

/-- The `while` guard: `current_url and page_count < max_pages`. -/
def whileCond (max_pages : Nat) (s : WalkerState) : Bool :=
  s.current_url.isSome && decide (s.page_count < max_pages)

/-- The per-query pagination loop, with explicit fuel: `some s` is normal loop
exit in state `s`; `none` means the loop was still running after `fuel`
iterations. A loop that returns `none` for every fuel value never
terminates. -/
def walkQuery (fetch : String → Nat → FetchOutcome) (budget max_pages : Nat)
    (query : String) : Nat → WalkerState → Option WalkerState
  | 0, _ => none
  | fuel + 1, s =>
    if whileCond max_pages s then
      walkQuery fetch budget max_pages query fuel (queryStep fetch budget query s)
    else some s

/-- Initial per-query state: `current_url = query`, `page_count = 0`,
`query_results = []`, nothing appended to `failed_queries` yet. -/
def initState (query : String) : WalkerState :=
  ⟨some query, 0, [], []⟩

/-- A deterministic environment whose every page fetch succeeds with a payload
whose `organic` array is empty: `{"organic": [], "general": {"query": q}}`
with no pagination block. -/
def fetchEmptyOrganic : String → Nat → FetchOutcome := fun _ _ =>
  .success ⟨[], "q", none⟩

/-! ## Metrics Aggregator (`article_scraper.py`, `ScraperMetrics`) -/

/-- One row of `failed_urls`, as appended by `record_failure` (the timestamp
string is passed in by the caller of the model). -/
structure FailureEntry where
  url : String
  error_type : String
  error_message : String
  timestamp : String
  deriving Repr, DecidableEq

/-- A `collections.Counter` as an association list; `counterIncr` is
`counter[key] += 1`. -/
def counterIncr : List (String × Nat) → String → List (String × Nat)
  | [], key => [(key, 1)]
  | (k, n) :: rest, key =>
    if k = key then (k, n + 1) :: rest else (k, n) :: counterIncr rest key

/-- The state of a `ScraperMetrics` instance. The lock is not modelled: every
mutation happens under the single `self.lock`, so the interleaved run is a
sequence of atomic updates on this state. `start_time` is `none` until
`start()` is called; times are `Rat` stand-ins for `time.time()` floats. -/
structure ScraperMetrics where
  total : Nat
  successful : Nat
  failed : Nat
  error_counts : List (String × Nat)
  scraper_counts : List (String × Nat)
  failed_urls : List FailureEntry
  processing_times : List Rat
  start_time : Option Rat
  deriving Repr, DecidableEq

/-- `ScraperMetrics.__init__`. -/
def ScraperMetrics.init : ScraperMetrics :=
  ⟨0, 0, 0, [], [], [], [], none⟩

/-- `start(total)`: sets `self.total = total; self.start_time = time.time()`. -/
def ScraperMetrics.start (m : ScraperMetrics) (total : Nat) (now : Rat) :
    ScraperMetrics :=
  { m with total := total, start_time := some now }

/-- `record_success(processing_time, scraper_used)`. -/
def ScraperMetrics.record_success (m : ScraperMetrics) (processing_time : Rat)
    (scraper_used : String) : ScraperMetrics :=
  { m with
    successful := m.successful + 1
    processing_times := m.processing_times ++ [processing_time]
    scraper_counts := counterIncr m.scraper_counts scraper_used }

/-- `record_failure(url, error_type, error_message)`; `ts` stands for
`datetime.now().isoformat()`. -/
def ScraperMetrics.record_failure (m : ScraperMetrics) (url error_type error_message ts : String) :
    ScraperMetrics :=
  { m with
    failed := m.failed + 1
    error_counts := counterIncr m.error_counts error_type
    failed_urls := m.failed_urls ++
      [⟨url, error_type, error_message, ts⟩] }

/-- Python `/`, which raises `ZeroDivisionError` on a zero denominator. -/
def pydiv (a b : Rat) : Except String Rat :=
  if b = 0 then .error "ZeroDivisionError" else .ok (a / b)

/-- `generate_report()` at wall-clock time `now`. Control flow, guards and
divisions follow the source; numeric display formatting is abstracted to
`toString`. `elapsed_time = time.time() - self.start_time if self.start_time
else 0` is a Python truthiness test, so a `start_time` of exactly `0` also
yields `0`. The one unguarded division is the throughput line
`self.total / elapsed_time`. -/
def ScraperMetrics.generate_report (m : ScraperMetrics) (now : Rat) :
    Except String String :=
  let elapsed_time : Rat :=
    match m.start_time with
    | some t => if t = 0 then 0 else now - t
    | none => 0
  let success_rate : Rat :=
    if 0 < m.total then (m.successful : Rat) / (m.total : Rat) * 100 else 0
  let avg_time : Rat :=
    if m.processing_times ≠ [] then
      m.processing_times.sum / (m.processing_times.length : Rat)
    else 0
  match pydiv (m.total : Rat) elapsed_time with
  | .error e => .error e
  | .ok throughput =>
    let report : List String :=
      [ "\n" ++ String.join (List.replicate 80 "=")
      , "ARTICLE SCRAPER EXECUTION REPORT"
      , String.join (List.replicate 80 "=")
      , "\n📊 OVERALL STATISTICS:"
      , "   Total URLs Processed:     " ++ toString m.total
      , "   ✓ Successful:             " ++ toString m.successful ++
          " (" ++ toString success_rate ++ "%)"
      , "   ✗ Failed:                 " ++ toString m.failed ++
          " (" ++ toString (100 - success_rate) ++ "%)"
      , "\n⏱  PERFORMANCE METRICS:"
      , "   Total Execution Time:     " ++ toString elapsed_time ++ "s (" ++
          toString (elapsed_time / 60) ++ "m)"
      , "   Average Time per Article: " ++ toString avg_time ++ "s"
      , "   Throughput:               " ++ toString throughput ++ " articles/sec" ]
    let report := report ++
      (if m.scraper_counts ≠ [] then
        "\n🔧 SCRAPER PERFORMANCE:" ::
          m.scraper_counts.map (fun sc =>
            let percentage : Rat :=
              if 0 < m.successful then
                (sc.2 : Rat) / (m.successful : Rat) * 100
              else 0
            "   " ++ sc.1 ++ " " ++ toString sc.2 ++
              " (" ++ toString percentage ++ "%)")
      else [])
    let report := report ++
      (if m.error_counts ≠ [] then
        "\n❌ ERROR BREAKDOWN:" ::
          m.error_counts.map (fun ec =>
            let percentage : Rat :=
              if 0 < m.failed then (ec.2 : Rat) / (m.failed : Rat) * 100 else 0
            "   " ++ ec.1 ++ " " ++ toString ec.2 ++
              " (" ++ toString percentage ++ "%)")
      else [])
    let report := report ++
      (if 0 < m.failed then
        [ "\n📝 ERROR LOG:"
        , "   Detailed error log saved to: outputs/scraper_errors.csv"
        , "   Failed URLs can be retried using the error log" ]
      else [])
    let report := report ++ ["\n" ++ String.join (List.replicate 80 "=") ++ "\n"]
    .ok (String.intercalate "\n" report)

/-! ## Extraction strategies (`article_scraper.py`) -/

/-- `len(text.strip())`: the length of `text` with leading and trailing
whitespace removed, as Python's `str.strip()` computes it. Implemented over
the character list so concrete instances evaluate. -/
def strippedLen (s : String) : Nat :=
  ((s.data.dropWhile Char.isWhitespace).reverse.dropWhile Char.isWhitespace).length

/-- The standardized dict every strategy returns on success:
`{title, url, summary, publish_date, keywords, article_text, scraper_used}`.
`keywords` is the already-joined display string the source builds. -/
structure ArticleRecord where
  title : String
  url : String
  summary : String
  publish_date : Option String
  keywords : String
  article_text : String
  scraper_used : String
  deriving Repr, DecidableEq

/-- What `newspaper3k` hands `scrape_with_newspaper` after
`download(); parse(); nlp()`: the fields the function reads. An exception
anywhere in the `try` body is the `Except.error` case. -/
structure NewsArticle where
  title : String
  text : String
  summary : String
  publish_date : Option String
  keywords : List String
  deriving Repr, DecidableEq

/-- `scrape_with_newspaper`: bare `except: return None` around the body;
content gate `if not article.text or len(article.text.strip()) < 100:
return None`. -/
def scrape_with_newspaper (url : String) (env : Except String NewsArticle) :
    Option ArticleRecord :=
  match env with
  | .error _ => none
  | .ok a =>
    if a.text = "" ∨ strippedLen a.text < 100 then none
    else some
      { title := a.title, url := url, summary := a.summary
        publish_date := a.publish_date
        keywords := if a.keywords ≠ [] then String.intercalate ", " a.keywords else ""
        article_text := a.text, scraper_used := "newspaper3k" }

/-- `trafilatura.extract_metadata` result fields the function reads. -/
structure TrafMetadata where
  title : Option String
  date : Option String
  deriving Repr, DecidableEq

/-- What the cloudscraper fetch + trafilatura calls produce inside
`scrape_with_trafilatura`: `extract` may return `None`. -/
structure TrafFetch where
  extracted : Option String
  metadata : Option TrafMetadata
  deriving Repr, DecidableEq

/-- `scrape_with_trafilatura`: gate `if not text or len(text.strip()) < 100:
return None` where `text` is `Optional[str]`; the title/date fall back to
`""` / `None` via the `if metadata and metadata.title` truthiness tests. -/
def scrape_with_trafilatura (url : String) (env : Except String TrafFetch) :
    Option ArticleRecord :=
  match env with
  | .error _ => none
  | .ok f =>
    match f.extracted with
    | none => none
    | some text =>
      if text = "" ∨ strippedLen text < 100 then none
      else some
        { title := match f.metadata with
            | some md => match md.title with
              | some t => if t = "" then "" else t
              | none => ""
            | none => ""
          url := url, summary := ""
          publish_date := match f.metadata with
            | some md => match md.date with
              | some d => if d = "" then none else some d
              | none => none
            | none => none
          keywords := "", article_text := text, scraper_used := "trafilatura" }

/-- What the cloudscraper fetch + `Document` + `BeautifulSoup.get_text` produce
inside `scrape_with_readability`: the cleaned text and `doc.title()`. -/
structure ReadFetch where
  text : String
  title : String
  deriving Repr, DecidableEq

/-- `scrape_with_readability`: gate `if not text or len(text.strip()) < 100:
return None`. -/
def scrape_with_readability (url : String) (env : Except String ReadFetch) :
    Option ArticleRecord :=
  match env with
  | .error _ => none
  | .ok f =>
    if f.text = "" ∨ strippedLen f.text < 100 then none
    else some
      { title := f.title, url := url, summary := "", publish_date := none
        keywords := "", article_text := f.text, scraper_used := "readability" }

/-- What `goose3`'s `g.extract(url=url)` yields: the fields the function
reads. -/
structure GooseArticle where
  title : String
  cleaned_text : String
  meta_description : String
  publish_date : Option String
  tags : List String
  deriving Repr, DecidableEq

/-- `scrape_with_goose`: gate `if not article.cleaned_text or
len(article.cleaned_text.strip()) < 100: return None`; the summary is
`article.meta_description or ""`. -/
def scrape_with_goose (url : String) (env : Except String GooseArticle) :
    Option ArticleRecord :=
  match env with
  | .error _ => none
  | .ok a =>
    if a.cleaned_text = "" ∨ strippedLen a.cleaned_text < 100 then none
    else some
      { title := a.title, url := url
        summary := if a.meta_description = "" then "" else a.meta_description
        publish_date := a.publish_date
        keywords := if a.tags ≠ [] then String.intercalate ", " a.tags else ""
        article_text := a.cleaned_text, scraper_used := "goose3" }

/-- The library-level inputs of one `scrape_single_article` call: what each
strategy's underlying fetch/parse would observe for this URL. -/
structure ScrapeEnv where
  newspaper : Except String NewsArticle
  trafilatura : Except String TrafFetch
  readability : Except String ReadFetch
  goose : Except String GooseArticle
  deriving Repr

/-- The `scrapers` fallback-chain list of `scrape_single_article`, in source
order, with each thunk already evaluated against the environment. -/
def scrapers (url : String) (env : ScrapeEnv) :
    List (String × Option ArticleRecord) :=
  [ ("newspaper3k", scrape_with_newspaper url env.newspaper)
  , ("trafilatura", scrape_with_trafilatura url env.trafilatura)
  , ("readability", scrape_with_readability url env.readability)
  , ("goose3", scrape_with_goose url env.goose) ]

/-- What one `scraper_func()` call does, as seen by the chain's `try`:
return a truthy dict, return a falsy result (`None`), or raise. In the
source all four strategies catch their own exceptions, so `raised` is an
extra generality of the stub level. -/
inductive StratOutcome where
  | ok (r : ArticleRecord)
  | failed
  | raised (msg : String)
  deriving Repr, DecidableEq

/-- An evaluated chain entry as a `StratOutcome` (`None` ↦ `failed`). -/
def asOutcome : Option ArticleRecord → StratOutcome
  | some r => .ok r
  | none => .failed

/-- The `for scraper_name, scraper_func in scrapers` loop of
`scrape_single_article`. Returns the function's return value, the metrics
state after the loop's single `record_success` / `record_failure` call, and —
as an observational trace — the names of the strategies that were invoked, in
order. `ptime` stands for `time.time() - start_time`; `ts` for the failure
timestamp. On success the recorded scraper tag is
`result.get('scraper_used', scraper_name)`: the record's own tag, every source
strategy setting it. -/
def chainLoop (metrics : ScraperMetrics) (url : String) (ptime : Rat)
    (ts : String) :
    List (String × StratOutcome) → String →
      Option ArticleRecord × ScraperMetrics × List String
  | [], last_error =>
    (none, metrics.record_failure url "All Scrapers Failed" last_error ts, [])
  | (name, out) :: rest, last_error =>
    match out with
    | .ok r => (some r, metrics.record_success ptime r.scraper_used, [name])
    | .failed =>
      let next := chainLoop metrics url ptime ts rest last_error
      (next.1, next.2.1, name :: next.2.2)
    | .raised msg =>
      let next := chainLoop metrics url ptime ts rest (name ++ " failed: " ++ msg)
      (next.1, next.2.1, name :: next.2.2)

/-- `scrape_single_article(url, config, metrics)`: run the fallback chain over
the four concrete strategies with `last_error = "All scrapers failed"`. -/
def scrape_single_article (url : String) (env : ScrapeEnv)
    (metrics : ScraperMetrics) (ptime : Rat) (ts : String) :
    Option ArticleRecord × ScraperMetrics × List String :=
  chainLoop metrics url ptime ts
    ((scrapers url env).map (fun p => (p.1, asOutcome p.2)))
    "All scrapers failed"

/-- The body of the `for future in as_completed(future_to_url)` drain of
`scrape_articles_concurrent`: one completed `scrape_single_article` task's
result is appended to `articles` when truthy, and the task has already folded
its one metrics event into the shared tracker. -/
def concurrentStep (env : String → ScrapeEnv) (times : String → Rat)
    (tss : String → String) (acc : List ArticleRecord × ScraperMetrics)
    (url : String) : List ArticleRecord × ScraperMetrics :=
  let r := scrape_single_article url (env url) acc.2 (times url) (tss url)
  (match r.1 with
   | some a => acc.1 ++ [a]
   | none => acc.1, r.2.1)

/-- `scrape_articles_concurrent(urls)`: `metrics.start(len(urls))`, one task
per URL, results appended as tasks complete. `completion` is the order in
which `as_completed` yields the futures — any permutation of `urls`; the
metrics updates themselves are serialized by the metrics lock. Returns the
collected `articles` list and the final metrics state. -/
def scrape_articles_concurrent (urls completion : List String)
    (env : String → ScrapeEnv) (times : String → Rat) (tss : String → String)
    (t0 : Rat) : List ArticleRecord × ScraperMetrics :=
  let m0 := ScraperMetrics.init.start urls.length t0
  completion.foldl (concurrentStep env times tss) ([], m0)

/-! ## Concrete environments used to evaluate the model -/

/-- A page payload with one organic entry and no next-page link. -/
def onePagePayload : PagePayload :=
  ⟨[⟨some "t", some "d", some "l", some 1⟩], "q", none⟩

/-- Page fetch that yields a 404 `HTTPError` on attempt 0 and a good page on
every later attempt. -/
def http404ThenSuccess : Nat → FetchOutcome := fun a =>
  if a = 0 then .httpError (some 404) else .success onePagePayload

/-- Page fetch that raises an unclassified exception on attempt 0 and would
yield a good page on every later attempt. -/
def unclassifiedThenSuccess : Nat → FetchOutcome := fun a =>
  if a = 0 then .unclassified else .success onePagePayload

/-- The first accepted entry of an evaluated fallback chain: its index, its
strategy name, and the record it produced. -/
def firstAccepted :
    List (String × Option ArticleRecord) → Option (Nat × String × ArticleRecord)
  | [] => none
  | (name, some r) :: _ => some (0, name, r)
  | (_, none) :: rest =>
    (firstAccepted rest).map fun x => (x.1 + 1, x.2.1, x.2.2)

/-- The record an evaluated fallback chain hands back: the first accepted
one. -/
def chainResult : List (String × Option ArticleRecord) → Option ArticleRecord
  | [] => none
  | (_, some r) :: _ => some r
  | (_, none) :: rest => chainResult rest

/-- The strategies an evaluated fallback chain invokes, in order: every entry
up to and including the first accepted one. -/
def chainInvoked : List (String × Option ArticleRecord) → List String
  | [] => []
  | (name, some _) :: _ => [name]
  | (name, none) :: rest => name :: chainInvoked rest

/-- A 120-character body text, comfortably above the 100-character quality
gate. -/
def longText : String :=
  String.join (List.replicate 12 "abcdefghij")

/-- A scrape environment in which newspaper3k extracts too little text,
trafilatura extracts `longText` with a title, and the two remaining
strategies would fail. -/
def envTrafWins : ScrapeEnv :=
  { newspaper := .ok ⟨"T", "short", "s", none, []⟩
    trafilatura := .ok ⟨some longText, some ⟨some "T", none⟩⟩
    readability := .ok ⟨"", ""⟩
    goose := .ok ⟨"", "", "", none, []⟩ }

/-- The record `scrape_with_trafilatura` produces on `envTrafWins`. -/
def trafRecord : ArticleRecord :=
  ⟨"T", "u", "", none, "", longText, "trafilatura"⟩

/-- A scrape environment in which every strategy's underlying library call
raises. -/
def envAllRaise : ScrapeEnv :=
  ⟨.error "boom", .error "boom", .error "boom", .error "boom"⟩

end PressRelease

namespace PressRelease

/-! ## Helper lemmas -/

/-- The retry loop makes at most `remaining` further attempts. -/
theorem retryFrom_attemptsUsed_le (fetch : Nat → FetchOutcome) (budget : Nat) :
    ∀ (remaining attempt : Nat),
      (retryFrom fetch budget attempt remaining).attemptsUsed ≤ remaining := by
  intro remaining
  induction remaining with
  | zero => intro a; simp [retryFrom]
  | succ n ih =>
    intro a
    rw [retryFrom]
    cases fetch a with
    | success payload =>
      by_cases hp : payload.organic = [] <;> simp [hp]
    | parseError =>
      cases hd : transientDecision budget a with
      | retry d => simpa [hd, RetryResult.after] using ih (a + 1)
      | terminal => simp [hd]
    | timeout =>
      cases hd : transientDecision budget a with
      | retry d => simpa [hd, RetryResult.after] using ih (a + 1)
      | terminal => simp [hd]
    | httpError status =>
      cases hd : httpErrorDecision budget a status with
      | retry d => simpa [hd, RetryResult.after] using ih (a + 1)
      | terminal => simp [hd]
    | connectionError =>
      cases hd : transientDecision budget a with
      | retry d => simpa [hd, RetryResult.after] using ih (a + 1)
      | terminal => simp [hd]
    | unclassified => simp

/-- On a state whose URL is live, an all-pages-empty environment makes one
`while` iteration keep `current_url` and `page_count` untouched (appending the
query to `failed_queries` when `page_count == 0`). -/
theorem queryStep_emptyOrganic (q url : String) (s : WalkerState)
    (h : s.current_url = some url) :
    queryStep fetchEmptyOrganic 3 q s =
      if s.page_count = 0 then
        { s with failed_queries := s.failed_queries ++ [q] }
      else s := by
  unfold queryStep
  rw [h]
  rfl

/-- Under the all-pages-empty environment the pagination loop never exits: the
`break` at `if not parsed.get("organic")` only leaves the retry loop, and the
`while` guard still holds on an unchanged `current_url` / `page_count`. -/
theorem walkQuery_emptyOrganic_none (q : String) :
    ∀ (fuel : Nat) (s : WalkerState), s.current_url = some q →
      s.page_count = 0 →
      walkQuery fetchEmptyOrganic 3 10 q fuel s = none := by
  intro fuel
  induction fuel with
  | zero => intro s _ _; rfl
  | succ n ih =>
    intro s h1 h2
    have hcond : whileCond 10 s = true := by
      simp [whileCond, h1, h2]
    rw [walkQuery, if_pos hcond, queryStep_emptyOrganic q q s h1, if_pos h2]
    exact ih _ (by simp [h1]) (by simp [h2])

/-! ## Claims C2, C3 (pagination termination) -/

/-- C2: the claim states that `collect_search_results` terminates for every
finite sequence of page responses, pagination stopping on a missing next
link, the page cap, or the empty-organic / exhausted-retry rules. The code
violates this: on a query whose page payload has an empty `organic` array the
`break` (commented `# No more results`) exits only the retry `for` loop, the
`while current_url and page_count < max_pages` guard re-evaluates on an
unchanged state, and the loop runs forever — for every fuel bound the loop is
still running. -/
theorem collect_results_pagination_diverges :
    ∀ fuel : Nat,
      walkQuery fetchEmptyOrganic 3 10 "q" fuel (initState "q") = none :=
  fun fuel => walkQuery_emptyOrganic_none "q" fuel (initState "q") rfl rfl

/-- C3: the claim states that an empty-`organic` page ends the query's
pagination normally, without the query being appended to `failed_queries`.
The code instead leaves `current_url` and `page_count` unchanged (so the
`while` guard still holds and pagination does not end) and, since
`success = False` and `page_count == 0`, appends the query to
`failed_queries`. -/
theorem empty_organic_first_page_marked_failed :
    queryStep fetchEmptyOrganic 3 "q" (initState "q") =
      ⟨some "q", 0, [], ["q"]⟩ ∧
    whileCond 10 (queryStep fetchEmptyOrganic 3 "q" (initState "q")) = true :=
  ⟨rfl, rfl⟩

/-! ## Claim C5 (4xx handling) -/

/-- C5 counterexample: the claim states that a 4xx status other than 429 is
terminal for the current page — no further attempt. On a fetch whose attempt 0
raises `HTTPError` with status 404 (budget 3), the code sleeps `2 ** 0 = 1`
and makes a second attempt. -/
theorem http_4xx_retried_counterexample :
    http404ThenSuccess 0 = .httpError (some 404) ∧
    (runAttempts http404ThenSuccess 3).attemptsUsed = 2 ∧
    (runAttempts http404ThenSuccess 3).sleeps = [1] :=
  ⟨rfl, rfl, rfl⟩

/-- C5 amended: a 4xx client error other than 429 is retried like any generic
transient error, with exponential backoff `2 ** attempt`, while attempts
remain; it is terminal only on the last attempt of the budget. A 429 is
retried with the longer backoff `10 * (attempt + 1)` (longer at every attempt
index the default budget of 3 can reach, and indeed up to index 5). -/
theorem http_4xx_retry_with_backoff (budget a s : Nat)
    (hs : s ≠ 429) (ha : a < budget - 1) :
    httpErrorDecision budget a (some s) = .retry (2 ^ a) ∧
    httpErrorDecision budget a (some 429) = .retry (10 * (a + 1)) ∧
    httpErrorDecision budget (budget - 1) (some s) = .terminal ∧
    httpErrorDecision budget (budget - 1) (some 429) = .terminal ∧
    (a ≤ 5 → 2 ^ a < 10 * (a + 1)) := by
  refine ⟨?_, ?_, ?_, ?_, ?_⟩
  · simp [httpErrorDecision, ha, hs]
  · simp [httpErrorDecision, ha]
  · simp [httpErrorDecision]
  · simp [httpErrorDecision]
  · intro h5; interval_cases a <;> norm_num

/-- C5 amended, witness at budget 3, attempt 0, status 404. -/
theorem http_4xx_retry_with_backoff_witness :
    ((404 : Nat) ≠ 429 ∧ 0 < 3 - 1) ∧
    httpErrorDecision 3 0 (some 404) = .retry 1 ∧
    httpErrorDecision 3 0 (some 429) = .retry 10 ∧
    httpErrorDecision 3 2 (some 404) = .terminal ∧
    2 ^ 0 < 10 * (0 + 1) := by
  have h := http_4xx_retry_with_backoff 3 0 404 (by decide) (by decide)
  exact ⟨⟨by decide, by decide⟩, h.1, h.2.1, h.2.2.1, h.2.2.2.2 (by decide)⟩

/-! ## Claim C8 (backoff shapes and attempt budget) -/

/-- C8: generic transient errors (timeout, connection error, JSON parse
failure) back off exponentially (`2 ** attempt`); HTTP 429 backs off with the
longer fixed multiplier `10 * (attempt + 1)`; and the retry loop never makes
more attempts than the configured budget. -/
theorem retry_backoff_policy (budget a s : Nat) (fetch : Nat → FetchOutcome)
    (ha : a < budget - 1) (hs : s ≠ 429) (ha5 : a ≤ 5) :
    transientDecision budget a = .retry (2 ^ a) ∧
    httpErrorDecision budget a (some s) = .retry (2 ^ a) ∧
    httpErrorDecision budget a (some 429) = .retry (10 * (a + 1)) ∧
    2 ^ a < 10 * (a + 1) ∧
    (runAttempts fetch budget).attemptsUsed ≤ budget := by
  refine ⟨?_, ?_, ?_, ?_, ?_⟩
  · simp [transientDecision, ha]
  · simp [httpErrorDecision, ha, hs]
  · simp [httpErrorDecision, ha]
  · interval_cases a <;> norm_num
  · exact retryFrom_attemptsUsed_le fetch budget budget 0

/-- C8 witness at budget 3, attempt 1, status 503, an always-timing-out
fetch. -/
theorem retry_backoff_policy_witness :
    (1 < 3 - 1 ∧ (503 : Nat) ≠ 429 ∧ 1 ≤ 5) ∧
    transientDecision 3 1 = .retry 2 ∧
    httpErrorDecision 3 1 (some 503) = .retry 2 ∧
    httpErrorDecision 3 1 (some 429) = .retry 20 ∧
    2 ^ 1 < 10 * (1 + 1) ∧
    (runAttempts (fun _ => .timeout) 3).attemptsUsed ≤ 3 := by
  have h := retry_backoff_policy 3 1 503 (fun _ => .timeout)
    (by decide) (by decide) (by decide)
  exact ⟨⟨by decide, by decide, by decide⟩, h.1, h.2.1, h.2.2.1, h.2.2.2.1,
    h.2.2.2.2⟩

/-! ## Claim C9 (unclassified errors) -/

/-- C9 counterexample: the claim states that an unclassified error on
attempt 1 is retried exactly once (a second attempt is made). On a fetch
whose attempt 0 raises an unclassified exception — and whose attempt 1 would
succeed — the code's bare `except Exception` handler breaks immediately:
exactly one attempt is made, no second. -/
theorem unclassified_no_second_attempt_counterexample :
    unclassifiedThenSuccess 0 = .unclassified ∧
    (runAttempts unclassifiedThenSuccess 3).attemptsUsed = 1 ∧
    (runAttempts unclassifiedThenSuccess 3).outcome = .failure :=
  ⟨rfl, rfl, rfl⟩

/-- C9 amended: an unclassified error is terminal immediately — the attempt
on which it occurs is the last one for that page, with no backoff sleep,
regardless of how many attempts of the budget remain. -/
theorem unclassified_error_immediately_terminal (fetch : Nat → FetchOutcome)
    (budget a r : Nat) (h : fetch a = .unclassified) :
    retryFrom fetch budget a (r + 1) = ⟨.failure, 1, []⟩ := by
  rw [retryFrom, h]

/-- C9 amended, witness: unclassified error on attempt 0 with two attempts of
budget left. -/
theorem unclassified_error_immediately_terminal_witness :
    unclassifiedThenSuccess 0 = .unclassified ∧
    retryFrom unclassifiedThenSuccess 3 0 3 = ⟨.failure, 1, []⟩ :=
  ⟨rfl, unclassified_error_immediately_terminal unclassifiedThenSuccess 3 0 2 rfl⟩

/-! ## Claims C1, C4 (exactly-one outcome, metrics conservation) -/

/-- The fallback-chain loop leaves `total` untouched and records exactly one
of a success (returning a record) or a failure (returning `None`). -/
theorem chainLoop_counts (metrics : ScraperMetrics) (url : String)
    (ptime : Rat) (ts : String) :
    ∀ (outs : List (String × StratOutcome)) (le : String),
      (chainLoop metrics url ptime ts outs le).2.1.total = metrics.total ∧
      (((chainLoop metrics url ptime ts outs le).1.isSome = true ∧
        (chainLoop metrics url ptime ts outs le).2.1.successful
          = metrics.successful + 1 ∧
        (chainLoop metrics url ptime ts outs le).2.1.failed = metrics.failed ∧
        (chainLoop metrics url ptime ts outs le).2.1.failed_urls
          = metrics.failed_urls) ∨
       ((chainLoop metrics url ptime ts outs le).1 = none ∧
        (chainLoop metrics url ptime ts outs le).2.1.failed
          = metrics.failed + 1 ∧
        (chainLoop metrics url ptime ts outs le).2.1.successful
          = metrics.successful ∧
        (chainLoop metrics url ptime ts outs le).2.1.failed_urls.length
          = metrics.failed_urls.length + 1)) := by
  intro outs
  induction outs with
  | nil =>
    intro le
    refine ⟨rfl, Or.inr ⟨rfl, rfl, rfl, ?_⟩⟩
    simp [chainLoop, ScraperMetrics.record_failure]
  | cons head rest ih =>
    intro le
    obtain ⟨name, out⟩ := head
    cases out with
    | ok r => exact ⟨rfl, Or.inl ⟨rfl, rfl, rfl, rfl⟩⟩
    | failed => exact ih le
    | raised msg => exact ih (name ++ " failed: " ++ msg)

/-- `chainLoop_counts`, restated on `scrape_single_article`. -/
theorem scrape_single_article_counts (url : String) (env : ScrapeEnv)
    (m : ScraperMetrics) (ptime : Rat) (ts : String) :
    (scrape_single_article url env m ptime ts).2.1.total = m.total ∧
    (((scrape_single_article url env m ptime ts).1.isSome = true ∧
      (scrape_single_article url env m ptime ts).2.1.successful
        = m.successful + 1 ∧
      (scrape_single_article url env m ptime ts).2.1.failed = m.failed ∧
      (scrape_single_article url env m ptime ts).2.1.failed_urls
        = m.failed_urls) ∨
     ((scrape_single_article url env m ptime ts).1 = none ∧
      (scrape_single_article url env m ptime ts).2.1.failed = m.failed + 1 ∧
      (scrape_single_article url env m ptime ts).2.1.successful
        = m.successful ∧
      (scrape_single_article url env m ptime ts).2.1.failed_urls.length
        = m.failed_urls.length + 1)) := by
  unfold scrape_single_article
  exact chainLoop_counts m url ptime ts
    ((scrapers url env).map fun p => (p.1, asOutcome p.2)) "All scrapers failed"

/-- C1: one `scrape_single_article` call produces exactly one of a content
record (the call returns a dict, `record_success` runs exactly once, no
failure is recorded) or a failure record (the call returns `None`,
`record_failure` runs exactly once appending one row to `failed_urls`, no
success is recorded) — never both, never neither. -/
theorem scrape_single_article_exactly_one (url : String) (env : ScrapeEnv)
    (m : ScraperMetrics) (ptime : Rat) (ts : String) :
    ((scrape_single_article url env m ptime ts).1.isSome = true ∧
      (scrape_single_article url env m ptime ts).2.1.successful
        = m.successful + 1 ∧
      (scrape_single_article url env m ptime ts).2.1.failed = m.failed ∧
      (scrape_single_article url env m ptime ts).2.1.failed_urls
        = m.failed_urls) ∨
    ((scrape_single_article url env m ptime ts).1 = none ∧
      (scrape_single_article url env m ptime ts).2.1.failed = m.failed + 1 ∧
      (scrape_single_article url env m ptime ts).2.1.successful
        = m.successful ∧
      (scrape_single_article url env m ptime ts).2.1.failed_urls.length
        = m.failed_urls.length + 1) :=
  (scrape_single_article_counts url env m ptime ts).2

/-- One drained task adds exactly one to `successful + failed` and leaves
`total` untouched. -/
theorem concurrentStep_counts (env : String → ScrapeEnv)
    (times : String → Rat) (tss : String → String)
    (acc : List ArticleRecord × ScraperMetrics) (url : String) :
    (concurrentStep env times tss acc url).2.successful +
        (concurrentStep env times tss acc url).2.failed
      = acc.2.successful + acc.2.failed + 1 ∧
    (concurrentStep env times tss acc url).2.total = acc.2.total := by
  have h := scrape_single_article_counts url (env url) acc.2 (times url)
    (tss url)
  refine ⟨?_, h.1⟩
  rcases h.2 with ⟨_, h1, h2, _⟩ | ⟨_, h1, h2, _⟩ <;>
    · show (scrape_single_article url (env url) acc.2 (times url)
          (tss url)).2.1.successful +
          (scrape_single_article url (env url) acc.2 (times url)
          (tss url)).2.1.failed = _
      omega

/-- Draining a batch of tasks adds the batch size to `successful + failed`
and leaves `total` untouched. -/
theorem concurrent_fold_counts (env : String → ScrapeEnv)
    (times : String → Rat) (tss : String → String) :
    ∀ (completion : List String) (acc : List ArticleRecord × ScraperMetrics),
      ((completion.foldl (concurrentStep env times tss) acc).2.successful +
          (completion.foldl (concurrentStep env times tss) acc).2.failed
        = acc.2.successful + acc.2.failed + completion.length) ∧
      (completion.foldl (concurrentStep env times tss) acc).2.total
        = acc.2.total := by
  intro completion
  induction completion with
  | nil => intro acc; simp
  | cons u rest ih =>
    intro acc
    have hstep := concurrentStep_counts env times tss acc u
    have hrest := ih (concurrentStep env times tss acc u)
    rw [List.foldl_cons]
    refine ⟨?_, hrest.2.trans hstep.2⟩
    rw [hrest.1, hstep.1, List.length_cons]
    omega

/-- C4: after `scrape_articles_concurrent` drains every task, the final
metrics snapshot satisfies `successful + failed == total`, where `total` was
set to the number of input URLs by `metrics.start(len(urls))`. -/
theorem concurrent_metrics_conservation (urls completion : List String)
    (env : String → ScrapeEnv) (times : String → Rat) (tss : String → String)
    (t0 : Rat) (hperm : completion.Perm urls) :
    (scrape_articles_concurrent urls completion env times tss t0).2.successful
        + (scrape_articles_concurrent urls completion env times tss t0).2.failed
      = (scrape_articles_concurrent urls completion env times tss t0).2.total ∧
    (scrape_articles_concurrent urls completion env times tss t0).2.total
      = urls.length := by
  have h := concurrent_fold_counts env times tss completion
    ([], ScraperMetrics.init.start urls.length t0)
  have hlen := hperm.length_eq
  unfold scrape_articles_concurrent
  refine ⟨?_, h.2⟩
  rw [h.1, h.2]
  show 0 + 0 + completion.length = urls.length
  omega

/-- C4 witness: two URLs drained in reversed completion order, every strategy
raising. -/
theorem concurrent_metrics_conservation_witness :
    (["b", "a"] : List String).Perm ["a", "b"] ∧
    (scrape_articles_concurrent ["a", "b"] ["b", "a"] (fun _ => envAllRaise)
        (fun _ => 1) (fun _ => "ts") 0).2.successful +
      (scrape_articles_concurrent ["a", "b"] ["b", "a"] (fun _ => envAllRaise)
        (fun _ => 1) (fun _ => "ts") 0).2.failed
      = (scrape_articles_concurrent ["a", "b"] ["b", "a"] (fun _ => envAllRaise)
        (fun _ => 1) (fun _ => "ts") 0).2.total ∧
    (scrape_articles_concurrent ["a", "b"] ["b", "a"] (fun _ => envAllRaise)
        (fun _ => 1) (fun _ => "ts") 0).2.total = 2 := by
  have hp : (["b", "a"] : List String).Perm ["a", "b"] :=
    List.Perm.swap "a" "b" []
  have h := concurrent_metrics_conservation ["a", "b"] ["b", "a"]
    (fun _ => envAllRaise) (fun _ => 1) (fun _ => "ts") 0 hp
  exact ⟨hp, h.1, h.2⟩

/-! ## Claim C6 (fallback order, short-circuit, strategy tag) -/

/-- The chain loop's return value is the first accepted record, and its
invocation trace is `chainInvoked`. -/
theorem chainLoop_spec (m : ScraperMetrics) (url : String) (t : Rat)
    (ts : String) :
    ∀ (outs : List (String × Option ArticleRecord)) (le : String),
      (chainLoop m url t ts (outs.map fun p => (p.1, asOutcome p.2)) le).1
        = chainResult outs ∧
      (chainLoop m url t ts (outs.map fun p => (p.1, asOutcome p.2)) le).2.2
        = chainInvoked outs := by
  intro outs
  induction outs with
  | nil => intro le; exact ⟨rfl, rfl⟩
  | cons head rest ih =>
    intro le
    obtain ⟨name, opt⟩ := head
    cases opt with
    | some r => exact ⟨rfl, rfl⟩
    | none =>
      refine ⟨(ih le).1, ?_⟩
      show name ::
        (chainLoop m url t ts (rest.map fun p => (p.1, asOutcome p.2)) le).2.2
        = name :: chainInvoked rest
      rw [(ih le).2]

/-- When some entry is accepted, the chain result is its record, the invoked
prefix stops right after it, and the entry really occurs in the chain. -/
theorem firstAccepted_some :
    ∀ (outs : List (String × Option ArticleRecord)) (i : Nat) (name : String)
      (r : ArticleRecord),
      firstAccepted outs = some (i, name, r) →
      chainResult outs = some r ∧
      chainInvoked outs = (outs.map Prod.fst).take (i + 1) ∧
      (name, some r) ∈ outs := by
  intro outs
  induction outs with
  | nil => intro i name r h; exact Option.noConfusion h
  | cons head rest ih =>
    intro i name r h
    obtain ⟨hname, hopt⟩ := head
    cases hopt with
    | some r0 =>
      simp only [firstAccepted, Option.some.injEq, Prod.mk.injEq] at h
      obtain ⟨h1, h2, h3⟩ := h
      subst h1; subst h2; subst h3
      exact ⟨rfl, rfl, List.mem_cons_self _ _⟩
    | none =>
      rw [firstAccepted] at h
      cases hfa : firstAccepted rest with
      | none => rw [hfa] at h; exact Option.noConfusion h
      | some x =>
        obtain ⟨j, n2, r2⟩ := x
        rw [hfa] at h
        rw [Option.map_some'] at h
        simp only [Option.some.injEq, Prod.mk.injEq] at h
        obtain ⟨h1, h2, h3⟩ := h
        subst h1; subst h2; subst h3
        obtain ⟨hc, hv, hm⟩ := ih j n2 r2 hfa
        refine ⟨hc, ?_, List.mem_cons_of_mem _ hm⟩
        show hname :: chainInvoked rest = hname :: (rest.map Prod.fst).take (j + 1)
        rw [hv]

/-- When no entry is accepted, the chain returns `None` and every strategy is
invoked. -/
theorem firstAccepted_none :
    ∀ outs : List (String × Option ArticleRecord),
      firstAccepted outs = none →
      chainResult outs = none ∧ chainInvoked outs = outs.map Prod.fst := by
  intro outs
  induction outs with
  | nil => intro _; exact ⟨rfl, rfl⟩
  | cons head rest ih =>
    intro h
    obtain ⟨name, opt⟩ := head
    cases opt with
    | some r => exact Option.noConfusion h
    | none =>
      rw [firstAccepted] at h
      cases hfa : firstAccepted rest with
      | some x => rw [hfa] at h; simp at h
      | none =>
        obtain ⟨hc, hv⟩ := ih hfa
        refine ⟨hc, ?_⟩
        show name :: chainInvoked rest = name :: rest.map Prod.fst
        rw [hv]

/-- Every record a chain entry produces carries that entry's strategy name as
its `scraper_used` tag. -/
theorem scrapers_tag (url : String) (env : ScrapeEnv) :
    ∀ p ∈ scrapers url env, ∀ r : ArticleRecord,
      p.2 = some r → r.scraper_used = p.1 := by
  intro p hp r
  simp only [scrapers, List.mem_cons, List.not_mem_nil, or_false] at hp
  rcases hp with h | h | h | h <;> subst h
  · cases hn : env.newspaper with
    | error e => simp [scrape_with_newspaper, hn]
    | ok a =>
      simp only [scrape_with_newspaper, hn]
      split
      · simp
      · intro hr
        injection hr with hr
        subst hr
        rfl
  · cases hn : env.trafilatura with
    | error e => simp [scrape_with_trafilatura, hn]
    | ok f =>
      simp only [scrape_with_trafilatura, hn]
      intro hr
      split at hr
      · exact Option.noConfusion hr
      · split at hr
        · exact Option.noConfusion hr
        · injection hr with hr
          subst hr
          rfl
  · cases hn : env.readability with
    | error e => simp [scrape_with_readability, hn]
    | ok f =>
      simp only [scrape_with_readability, hn]
      split
      · simp
      · intro hr
        injection hr with hr
        subst hr
        rfl
  · cases hn : env.goose with
    | error e => simp [scrape_with_goose, hn]
    | ok a =>
      simp only [scrape_with_goose, hn]
      split
      · simp
      · intro hr
        injection hr with hr
        subst hr
        rfl

/-- C6: the chain tries its strategies in the fixed source order newspaper3k,
trafilatura, readability, goose3; the first accepted result short-circuits the
remaining strategies (the invocation trace stops right after it); and the
returned record's `scraper_used` tag names the strategy that produced it. If
nothing is accepted, all four are invoked and nothing is returned. -/
theorem fallback_chain_order_and_tag (url : String) (env : ScrapeEnv)
    (m : ScraperMetrics) (t : Rat) (ts : String) :
    ((scrapers url env).map Prod.fst
      = ["newspaper3k", "trafilatura", "readability", "goose3"]) ∧
    (∀ (i : Nat) (name : String) (r : ArticleRecord),
      firstAccepted (scrapers url env) = some (i, name, r) →
      (scrape_single_article url env m t ts).1 = some r ∧
      (scrape_single_article url env m t ts).2.2
        = ["newspaper3k", "trafilatura", "readability", "goose3"].take (i + 1) ∧
      r.scraper_used = name) ∧
    (firstAccepted (scrapers url env) = none →
      (scrape_single_article url env m t ts).1 = none ∧
      (scrape_single_article url env m t ts).2.2
        = ["newspaper3k", "trafilatura", "readability", "goose3"]) := by
  have hnames : (scrapers url env).map Prod.fst
      = ["newspaper3k", "trafilatura", "readability", "goose3"] := rfl
  have hspec := chainLoop_spec m url t ts (scrapers url env)
    "All scrapers failed"
  refine ⟨rfl, ?_, ?_⟩
  · intro i name r h
    obtain ⟨hc, hv, hm⟩ := firstAccepted_some (scrapers url env) i name r h
    refine ⟨?_, ?_, scrapers_tag url env (name, some r) hm r rfl⟩
    · show (chainLoop m url t ts
        ((scrapers url env).map fun p => (p.1, asOutcome p.2))
        "All scrapers failed").1 = some r
      rw [hspec.1, hc]
    · show (chainLoop m url t ts
        ((scrapers url env).map fun p => (p.1, asOutcome p.2))
        "All scrapers failed").2.2 = _
      rw [hspec.2, hv, hnames]
  · intro h
    obtain ⟨hc, hv⟩ := firstAccepted_none (scrapers url env) h
    constructor
    · show (chainLoop m url t ts
        ((scrapers url env).map fun p => (p.1, asOutcome p.2))
        "All scrapers failed").1 = none
      rw [hspec.1, hc]
    · show (chainLoop m url t ts
        ((scrapers url env).map fun p => (p.1, asOutcome p.2))
        "All scrapers failed").2.2 = _
      rw [hspec.2, hv, hnames]

set_option maxRecDepth 16384 in
/-- C6 witness: newspaper3k fails on short text, trafilatura accepts; the
chain returns trafilatura's record, invokes exactly the first two strategies,
and tags the record `trafilatura`. -/
theorem fallback_chain_order_and_tag_witness :
    firstAccepted (scrapers "u" envTrafWins)
      = some (1, "trafilatura", trafRecord) ∧
    (scrape_single_article "u" envTrafWins ScraperMetrics.init 1 "ts").1
      = some trafRecord ∧
    (scrape_single_article "u" envTrafWins ScraperMetrics.init 1 "ts").2.2
      = ["newspaper3k", "trafilatura"] ∧
    trafRecord.scraper_used = "trafilatura" := by
  have hfa : firstAccepted (scrapers "u" envTrafWins)
      = some (1, "trafilatura", trafRecord) := rfl
  have h := (fallback_chain_order_and_tag "u" envTrafWins ScraperMetrics.init
    1 "ts").2.1 1 "trafilatura" trafRecord hfa
  exact ⟨hfa, h.1, h.2.1, h.2.2⟩

/-! ## Claim C7 (content-quality gate) -/

/-- C7: each of the four strategies returns a record exactly when the
extracted body text is non-empty and its stripped length reaches the
100-character minimum; a stripped-empty or below-threshold text yields
`None`, never a record (and so does any raised library exception). -/
theorem strategy_min_length_gate (url : String) (na : NewsArticle)
    (tf : TrafFetch) (rd : ReadFetch) (ga : GooseArticle) (e : String) :
    ((scrape_with_newspaper url (.ok na)).isSome
      ↔ (na.text ≠ "" ∧ 100 ≤ strippedLen na.text)) ∧
    ((scrape_with_trafilatura url (.ok tf)).isSome
      ↔ (∃ t, tf.extracted = some t ∧ t ≠ "" ∧ 100 ≤ strippedLen t)) ∧
    ((scrape_with_readability url (.ok rd)).isSome
      ↔ (rd.text ≠ "" ∧ 100 ≤ strippedLen rd.text)) ∧
    ((scrape_with_goose url (.ok ga)).isSome
      ↔ (ga.cleaned_text ≠ "" ∧ 100 ≤ strippedLen ga.cleaned_text)) ∧
    scrape_with_newspaper url (.error e) = none ∧
    scrape_with_trafilatura url (.error e) = none ∧
    scrape_with_readability url (.error e) = none ∧
    scrape_with_goose url (.error e) = none := by
  refine ⟨?_, ?_, ?_, ?_, rfl, rfl, rfl, rfl⟩
  · by_cases h : na.text = "" ∨ strippedLen na.text < 100
    · simp only [scrape_with_newspaper, if_pos h, Option.isSome_none]
      refine iff_of_false (by simp) ?_
      rintro ⟨h1, h2⟩
      rcases h with hc | hc
      · exact h1 hc
      · omega
    · push_neg at h
      have hcond : ¬(na.text = "" ∨ strippedLen na.text < 100) := by
        rintro (hc | hc)
        · exact h.1 hc
        · omega
      simp only [scrape_with_newspaper, if_neg hcond, Option.isSome_some]
      exact iff_of_true trivial ⟨h.1, h.2⟩
  · cases he : tf.extracted with
    | none =>
      simp only [scrape_with_trafilatura, he, Option.isSome_none]
      refine iff_of_false (by simp) ?_
      rintro ⟨t, ht, _, _⟩
      exact Option.noConfusion ht
    | some t =>
      by_cases h : t = "" ∨ strippedLen t < 100
      · simp only [scrape_with_trafilatura, he, if_pos h, Option.isSome_none]
        refine iff_of_false (by simp) ?_
        rintro ⟨t2, ht2, h1, h2⟩
        injection ht2 with ht2
        subst ht2
        rcases h with hc | hc
        · exact h1 hc
        · omega
      · push_neg at h
        have hcond : ¬(t = "" ∨ strippedLen t < 100) := by
          rintro (hc | hc)
          · exact h.1 hc
          · omega
        simp only [scrape_with_trafilatura, he, if_neg hcond,
          Option.isSome_some]
        exact iff_of_true trivial ⟨t, rfl, h.1, h.2⟩
  · by_cases h : rd.text = "" ∨ strippedLen rd.text < 100
    · simp only [scrape_with_readability, if_pos h, Option.isSome_none]
      refine iff_of_false (by simp) ?_
      rintro ⟨h1, h2⟩
      rcases h with hc | hc
      · exact h1 hc
      · omega
    · push_neg at h
      have hcond : ¬(rd.text = "" ∨ strippedLen rd.text < 100) := by
        rintro (hc | hc)
        · exact h.1 hc
        · omega
      simp only [scrape_with_readability, if_neg hcond, Option.isSome_some]
      exact iff_of_true trivial ⟨h.1, h.2⟩
  · by_cases h : ga.cleaned_text = "" ∨ strippedLen ga.cleaned_text < 100
    · simp only [scrape_with_goose, if_pos h, Option.isSome_none]
      refine iff_of_false (by simp) ?_
      rintro ⟨h1, h2⟩
      rcases h with hc | hc
      · exact h1 hc
      · omega
    · push_neg at h
      have hcond : ¬(ga.cleaned_text = "" ∨ strippedLen ga.cleaned_text < 100) := by
        rintro (hc | hc)
        · exact h.1 hc
        · omega
      simp only [scrape_with_goose, if_neg hcond, Option.isSome_some]
      exact iff_of_true trivial ⟨h.1, h.2⟩

/-! ## Claim C10 (report requires start) -/

/-- C10: `generate_report` on a tracker whose `start()` was never called
raises `ZeroDivisionError` — `elapsed_time` is `0` and the throughput line
divides `total` by it; once `start()` has run and wall-clock time has
advanced, `generate_report` returns a string for every metrics state. -/
theorem generate_report_start_required (m : ScraperMetrics) (now t : Rat) :
    (m.start_time = none →
      m.generate_report now = .error "ZeroDivisionError") ∧
    (m.start_time = some t → 0 < t → t < now →
      ∃ s, m.generate_report now = .ok s) := by
  constructor
  · intro h
    unfold ScraperMetrics.generate_report
    rw [h]
    rfl
  · intro h ht htn
    have ht0 : ¬(t = 0) := ne_of_gt ht
    have hne : ¬(now - t = 0) := sub_ne_zero.mpr (ne_of_gt htn)
    unfold ScraperMetrics.generate_report
    rw [h]
    simp only [ht0, if_false, pydiv, hne, if_true, reduceIte]
    exact ⟨_, rfl⟩

/-- C10 witness: a fresh tracker errors with `ZeroDivisionError`; a tracker
started at time 1 and reported at time 3 returns a string. -/
theorem generate_report_start_required_witness :
    ScraperMetrics.init.generate_report 5 = .error "ZeroDivisionError" ∧
    ∃ s, (ScraperMetrics.init.start 2 1).generate_report 3 = .ok s :=
  ⟨(generate_report_start_required ScraperMetrics.init 5 1).1 rfl,
   (generate_report_start_required (ScraperMetrics.init.start 2 1) 3 1).2 rfl
     (by norm_num) (by norm_num)⟩

end PressRelease
